import Mathlib

/-!
Verification development for the sentiment-analysis-dashboard backend.

The Python services under `src/backend` are shallowly embedded:

* `services/person_detector.py` — `BoundingBox` (integer coordinates, rational
  confidence).
* `services/person_tracker.py` — `TrackedPerson`, `PersonTracker` and its
  IoU-based `update` loop.  The external `scipy.optimize.linear_sum_assignment`
  solver is an external collaborator and is passed in as a function parameter.
* `services/keyword_parser.py` — the lexicon-based `KeywordParser`.
* `services/speech_analyzer_v2.py` — `_calculate_speech_engagement`.
* `services/engagement_scorer_v2.py` — `PersonEngagement`, `RoomEngagement`,
  `EngagementScorer.score_person`, `EngagementScorer.aggregate_room`.
* `main_fastvlm.py` — the per-connection webhook rate limiting of
  `websocket_endpoint` together with `send_webhook`, modelled as a step
  function over an explicit event trace (times are rationals in seconds).

Python floats are modelled as rationals, Python strings as Lean `String`
(character lists), Python dicts crossing the contract boundary as structures
with `Option` fields for keys that may be absent.
-/

namespace SentimentDashboard

/-! ## Bounding boxes (`services/person_detector.py`, class `BoundingBox`) -/

/-- `BoundingBox.__init__`: integer corner coordinates plus a detection
confidence (`class_id` is constant 0 for persons and is omitted). -/
structure BoundingBox where
  x1 : ℤ
  y1 : ℤ
  x2 : ℤ
  y2 : ℤ
  confidence : ℚ
deriving DecidableEq, Repr

/-- `BoundingBox.width` property: `x2 - x1`. -/
def BoundingBox.width (b : BoundingBox) : ℤ := b.x2 - b.x1

/-- `BoundingBox.height` property: `y2 - y1`. -/
def BoundingBox.height (b : BoundingBox) : ℤ := b.y2 - b.y1

/-- `BoundingBox.area` property: `width * height`. -/
def BoundingBox.area (b : BoundingBox) : ℤ := b.width * b.height

/-- Well-formedness invariant from the spec data model: `x2 ≥ x1, y2 ≥ y1`. -/
def BoundingBox.WellFormed (b : BoundingBox) : Prop := b.x1 ≤ b.x2 ∧ b.y1 ≤ b.y2

instance (b : BoundingBox) : Decidable b.WellFormed := by
  unfold BoundingBox.WellFormed
  infer_instance

/-! ## IoU (`services/person_tracker.py`, `PersonTracker._compute_iou`) -/

/-- The intersection term of `PersonTracker._compute_iou`:
`max(0, x2 - x1) * max(0, y2 - y1)` for the clipped rectangle. -/
def interArea (bbox1 bbox2 : BoundingBox) : ℤ :=
  max 0 (min bbox1.x2 bbox2.x2 - max bbox1.x1 bbox2.x1) *
    max 0 (min bbox1.y2 bbox2.y2 - max bbox1.y1 bbox2.y1)

/-- The union term of `PersonTracker._compute_iou`:
`area1 + area2 - intersection`. -/
def unionArea (bbox1 bbox2 : BoundingBox) : ℤ :=
  bbox1.area + bbox2.area - interArea bbox1 bbox2

/-- `PersonTracker._compute_iou`: intersection over union, `0.0` when the
union is zero. -/
def computeIoU (bbox1 bbox2 : BoundingBox) : ℚ :=
  if unionArea bbox1 bbox2 = 0 then 0
  else (interArea bbox1 bbox2 : ℚ) / (unionArea bbox1 bbox2 : ℚ)

/-! ## Tracks (`services/person_tracker.py`, class `TrackedPerson`) -/

/-- `TrackedPerson` state: id, current bbox, bounded history (deque of
maxlen 30), missed-frame counter, total frames seen. -/
structure TrackedPerson where
  track_id : ℕ
  bbox : BoundingBox
  history : List BoundingBox
  frames_since_update : ℕ
  total_frames : ℕ
deriving DecidableEq, Repr

/-- `collections.deque(maxlen=n)` append: push right, drop from the left when
over capacity. -/
def appendBounded (maxlen : ℕ) (l : List BoundingBox) (x : BoundingBox) :
    List BoundingBox :=
  let l' := l ++ [x]
  l'.drop (l'.length - maxlen)

/-- `TrackedPerson.__init__`. -/
def TrackedPerson.init (track_id : ℕ) (bbox : BoundingBox) : TrackedPerson :=
  { track_id := track_id
    bbox := bbox
    history := [bbox]
    frames_since_update := 0
    total_frames := 1 }

/-- `TrackedPerson.update`: replace the bbox, append to the bounded history,
reset the missed counter, bump the total-frames counter. -/
def TrackedPerson.updateDet (t : TrackedPerson) (bbox : BoundingBox) :
    TrackedPerson :=
  { t with
    bbox := bbox
    history := appendBounded 30 t.history bbox
    frames_since_update := 0
    total_frames := t.total_frames + 1 }

/-- `TrackedPerson.mark_missed`. -/
def TrackedPerson.mark_missed (t : TrackedPerson) : TrackedPerson :=
  { t with frames_since_update := t.frames_since_update + 1 }

/-! ## Tracker (`services/person_tracker.py`, class `PersonTracker`) -/

/-- `PersonTracker` state.  The `tracks` dict is modelled as an
insertion-ordered association list (Python dicts preserve insertion order,
which the code relies on when listing `tracks.keys()` and `tracks.values()`). -/
structure PersonTracker where
  iou_threshold : ℚ
  max_age : ℕ
  tracks : List (ℕ × TrackedPerson)
  next_track_id : ℕ
deriving DecidableEq, Repr

/-- `PersonTracker.__init__` with the default `iou_threshold=0.3`,
`max_age=30`. -/
def PersonTracker.init : PersonTracker :=
  { iou_threshold := 3/10
    max_age := 30
    tracks := []
    next_track_id := 1 }

/-- `PersonTracker._create_new_track`. -/
def PersonTracker.create_new_track (st : PersonTracker) (bbox : BoundingBox) :
    PersonTracker :=
  { st with
    tracks := st.tracks ++ [(st.next_track_id, TrackedPerson.init st.next_track_id bbox)],
    next_track_id := st.next_track_id + 1 }

/-- `PersonTracker._remove_stale_tracks`: delete every track whose
`frames_since_update` exceeds `max_age`. -/
def PersonTracker.remove_stale_tracks (st : PersonTracker) : PersonTracker :=
  { st with tracks := st.tracks.filter (fun it => !(st.max_age < it.2.frames_since_update)) }

/-- Entry `iou_matrix[r][c]` with the out-of-range default 0 (the solver is
trusted to return in-range indices; out-of-range reads never match). -/
def matrixGet (m : List (List ℚ)) (r c : ℕ) : ℚ :=
  (((m.get? r).getD []).get? c).getD 0

/-- Replace the track stored under `tid` by its update with `d`
(the `self.tracks[track_id].update(detections[col])` line). -/
def PersonTracker.updateTrack (st : PersonTracker) (tid : ℕ) (d : BoundingBox) :
    PersonTracker :=
  { st with tracks := st.tracks.map (fun it => if it.1 = tid then (it.1, it.2.updateDet d) else it) }

/-- `PersonTracker.update`.  The Hungarian solver
`scipy.optimize.linear_sum_assignment(-iou_matrix)` is an external
collaborator, abstracted as the parameter `lsa` returning (row, col) pairs.
Returns the new tracker state and the list of all remaining tracks
(`list(self.tracks.values())`). -/
def PersonTracker.update (lsa : List (List ℚ) → List (ℕ × ℕ))
    (st : PersonTracker) (detections : List BoundingBox) :
    PersonTracker × List TrackedPerson :=
  -- mark all existing tracks as potentially missed
  let st := { st with tracks := st.tracks.map (fun it => (it.1, it.2.mark_missed)) }
  if detections.length = 0 then
    -- no detections: just prune and return
    let st := st.remove_stale_tracks
    (st, st.tracks.map Prod.snd)
  else if st.tracks.length = 0 then
    -- no existing tracks: one new track per detection
    let st := detections.foldl PersonTracker.create_new_track st
    (st, st.tracks.map Prod.snd)
  else
    let track_ids := st.tracks.map Prod.fst
    let iou_matrix := st.tracks.map (fun it => detections.map (fun d => computeIoU it.2.bbox d))
    let pairs := lsa iou_matrix
    -- accept pairs meeting the IoU threshold, update the matched tracks
    let accepted := pairs.filter (fun rc => st.iou_threshold ≤ matrixGet iou_matrix rc.1 rc.2)
    let st := accepted.foldl
      (fun s rc =>
        match track_ids.get? rc.1, detections.get? rc.2 with
        | some tid, some d => s.updateTrack tid d
        | _, _ => s) st
    let matchedCols := accepted.map Prod.snd
    -- unmatched detections spawn new tracks
    let st := (detections.enum.filter (fun jd => !(matchedCols.contains jd.1))).foldl
      (fun s jd => s.create_new_track jd.2) st
    let st := st.remove_stale_tracks
    (st, st.tracks.map Prod.snd)

/-! ## Python string primitives

`str.lower`, the `in` containment test, `str.find`, slicing and `str.split()`
word counting, as used by `keyword_parser.py` and `speech_analyzer_v2.py`.
Text is modelled as Lean `String` (a list of characters); `lower` is the
per-character ASCII lowering, which is exact on the ASCII lexicons involved. -/

/-- Python `needle in hay` on character lists: some tail of `hay` starts with
`needle` (true for the empty needle, as in Python). -/
def pyInL (needle hay : List Char) : Bool :=
  hay.tails.any (fun t => needle.isPrefixOf t)

/-- Python `needle in hay` on strings. -/
def pyIn (needle hay : String) : Bool :=
  pyInL needle.toList hay.toList

/-- Helper for `str.find`: first index `≥ i` at which `needle` starts. -/
def pyFindAux (needle : List Char) : List Char → ℕ → Option ℕ
  | [], i => if needle.isPrefixOf ([] : List Char) then some i else none
  | c :: rest, i =>
    if needle.isPrefixOf (c :: rest) then some i else pyFindAux needle rest (i + 1)

/-- Python `hay.find(needle)`: index of the first occurrence, `none` for the
sentinel `-1`. -/
def pyFind (needle hay : String) : Option ℕ :=
  pyFindAux needle.toList hay.toList 0

/-- Python `text.lower()` (ASCII). -/
def lowercase (s : String) : String :=
  ⟨s.toList.map Char.toLower⟩

/-- Helper for `len(text.split())`: count maximal runs of non-whitespace
characters; the flag records whether we are inside a word. -/
def wordCountAux : List Char → Bool → ℕ
  | [], _ => 0
  | c :: rest, inWord =>
    if c.isWhitespace then wordCountAux rest false
    else (if inWord then 0 else 1) + wordCountAux rest true

/-- Python `len(text.split())`. -/
def word_count (s : String) : ℕ := wordCountAux s.toList false

/-- The apostrophe character, written via its code point. -/
def apostrophe : Char := Char.ofNat 39

/-- Build a negation contraction such as `doesn` + `'` + `t`. -/
def contraction (a b : String) : String :=
  a ++ String.singleton apostrophe ++ b

/-! ## Keyword parser (`services/keyword_parser.py`, class `KeywordParser`) -/

namespace KeywordParser

/-- `KeywordParser.POSITIVE_KEYWORDS`. -/
def POSITIVE_KEYWORDS : List String := [
  "engaged", "attentive", "focused", "interested", "participative",
  "active", "alert", "concentrated", "involved", "enthusiastic",
  "smiling", "happy", "excited", "nodding", "leaning forward",
  "eye contact", "looking at", "watching", "listening", "paying attention",
  "energetic", "animated", "vibrant", "lively", "eager",
  "curious", "responsive", "expressive", "bright", "cheerful",
  "positive", "upbeat", "motivated", "open", "receptive"]

/-- `KeywordParser.NEUTRAL_KEYWORDS`. -/
def NEUTRAL_KEYWORDS : List String := [
  "neutral", "calm", "relaxed", "composed", "steady",
  "sitting", "present", "quiet", "still", "stable"]

/-- `KeywordParser.NEGATIVE_KEYWORDS`. -/
def NEGATIVE_KEYWORDS : List String := [
  "distracted", "bored", "disengaged", "uninterested", "withdrawn",
  "passive", "tired", "fatigued", "sleepy", "drowsy",
  "looking away", "looking down", "checking phone", "yawning",
  "slouching", "leaning back", "arms crossed", "frowning", "confused",
  "unhappy", "sad", "frustrated", "worried"]

/-- `KeywordParser.NEGATION_WORDS` (contractions assembled via
`contraction` to spell the apostrophe). -/
def NEGATION_WORDS : List String := [
  "not", "no", "never", "neither", "none", "nobody", "nothing",
  "nowhere", "hardly", "barely", "scarcely", contraction "doesn" "t",
  contraction "don" "t", contraction "isn" "t", contraction "aren" "t",
  contraction "wasn" "t", contraction "weren" "t", contraction "won" "t",
  contraction "wouldn" "t", "without"]

/-- `KeywordParser.OPEN_POSTURE`. -/
def OPEN_POSTURE : List String :=
  ["leaning forward", "open posture", "relaxed shoulders", "uncrossed arms", "upright"]

/-- `KeywordParser.CLOSED_POSTURE`. -/
def CLOSED_POSTURE : List String :=
  ["arms crossed", "leaning back", "slouching", "turned away", "hunched"]

/-- `KeywordParser.ACTIVE_GESTURES`. -/
def ACTIVE_GESTURES : List String :=
  ["gesturing", "hand raised", "nodding", "moving", "pointing"]

/-- `KeywordParser.POSITIVE_EMOTIONS`. -/
def POSITIVE_EMOTIONS : List String := [
  "happy", "smiling", "pleased", "content", "excited", "surprised", "delighted",
  "joyful", "enthusiastic", "cheerful", "bright", "positive", "upbeat",
  "animated", "expressive", "energetic", "lively"]

/-- `KeywordParser.NEGATIVE_EMOTIONS`. -/
def NEGATIVE_EMOTIONS : List String :=
  ["sad", "frustrated", "angry", "confused", "worried", "concerned", "upset"]

/-- `KeywordParser.NEUTRAL_EMOTIONS`. -/
def NEUTRAL_EMOTIONS : List String :=
  ["neutral", "calm", "composed", "expressionless", "blank"]

/-- The dictionary returned by `KeywordParser.parse`, flattened: the nested
`keywords` / `body_language` / `emotions` dicts become sibling fields. -/
structure ParseResult where
  vlm_text : String
  positive : List String
  neutral : List String
  negative : List String
  open_posture : List String
  closed_posture : List String
  active_gestures : List String
  positive_emotions : List String
  negative_emotions : List String
  neutral_emotions : List String
  contextual_score : ℚ
  dominant_sentiment : String
deriving DecidableEq, Repr

/-- `KeywordParser._empty_result`. -/
def empty_result : ParseResult :=
  { vlm_text := ""
    positive := []
    neutral := []
    negative := []
    open_posture := []
    closed_posture := []
    active_gestures := []
    positive_emotions := []
    negative_emotions := []
    neutral_emotions := []
    contextual_score := 1/2
    dominant_sentiment := "neutral" }

/-- `KeywordParser._is_negated`: a negation word occurs in the 30 characters
before the keyword's first occurrence.  `start = max(0, keyword_index - 30)`
is truncated `ℕ` subtraction; `text[start:keyword_index]` is drop/take. -/
def is_negated (keyword text : String) : Bool :=
  match pyFind keyword text with
  | none => false
  | some keyword_index =>
    let start := keyword_index - 30
    let before_text := (text.toList.drop start).take (keyword_index - start)
    NEGATION_WORDS.any (fun neg => pyInL neg.toList before_text)

/-- `KeywordParser._extract_matching`: the keywords contained in the text, in
lexicon order, each at most once; with `check_negation` the negated ones are
skipped. -/
def extract_matching (text : String) (keywords : List String)
    (check_negation : Bool) : List String :=
  keywords.filter (fun kw => pyIn kw text && !(check_negation && is_negated kw text))

/-- `KeywordParser._calculate_contextual_score`. -/
def calculate_contextual_score (positive neutral negative open_posture
    closed_posture active_gestures positive_emotions negative_emotions :
    List String) : ℚ :=
  let score : ℚ := 1/2
  let score := score + min (4/10) ((positive.length : ℚ) * (8/100))
  let score := score - min (4/10) ((negative.length : ℚ) * (8/100))
  let score := if open_posture.isEmpty then score else score + 15/100
  let score := if closed_posture.isEmpty then score else score - 15/100
  let score := if active_gestures.isEmpty then score else score + 15/100
  let score := if positive_emotions.isEmpty then score
    else score + min (25/100) ((positive_emotions.length : ℚ) * (8/100))
  let score := if negative_emotions.isEmpty then score else score - 15/100
  let score := score + min (5/100) ((neutral.length : ℚ) * (2/100))
  max 0 (min 1 score)

/-- `KeywordParser._determine_dominant_sentiment`: strict majority of match
counts, ties resolving to neutral. -/
def determine_dominant_sentiment (positive neutral negative : List String) :
    String :=
  let pos_count := positive.length
  let neu_count := neutral.length
  let neg_count := negative.length
  if neg_count < pos_count ∧ neu_count < pos_count then "positive"
  else if pos_count < neg_count ∧ neu_count < neg_count then "negative"
  else "neutral"

/-- `KeywordParser.parse`.  `if not vlm_text` (absent or empty text) returns
the canonical empty result; otherwise the lexicons are scanned over the
lowercased text, with negation checking for positive keywords only. -/
def parse (vlm_text : String) : ParseResult :=
  if vlm_text = "" then empty_result
  else
    let lower_text := lowercase vlm_text
    let positive := extract_matching lower_text POSITIVE_KEYWORDS true
    let neutral := extract_matching lower_text NEUTRAL_KEYWORDS false
    let negative := extract_matching lower_text NEGATIVE_KEYWORDS false
    let open_posture := extract_matching lower_text OPEN_POSTURE false
    let closed_posture := extract_matching lower_text CLOSED_POSTURE false
    let active_gestures := extract_matching lower_text ACTIVE_GESTURES false
    let positive_emotions := extract_matching lower_text POSITIVE_EMOTIONS false
    let negative_emotions := extract_matching lower_text NEGATIVE_EMOTIONS false
    let neutral_emotions := extract_matching lower_text NEUTRAL_EMOTIONS false
    { vlm_text := vlm_text
      positive := positive
      neutral := neutral
      negative := negative
      open_posture := open_posture
      closed_posture := closed_posture
      active_gestures := active_gestures
      positive_emotions := positive_emotions
      negative_emotions := negative_emotions
      neutral_emotions := neutral_emotions
      contextual_score := calculate_contextual_score positive neutral negative
        open_posture closed_posture active_gestures positive_emotions negative_emotions
      dominant_sentiment := determine_dominant_sentiment positive neutral negative }

end KeywordParser

/-! ## Speech engagement (`services/speech_analyzer_v2.py`,
`SpeechAnalyzer._calculate_speech_engagement`) -/

namespace SpeechAnalyzer

/-- The fixed `engagement_keywords` list inside
`_calculate_speech_engagement`. -/
def engagement_keywords : List String :=
  ["agree", "yes", "understand", "great", "excellent",
   "interesting", "question", "think", "believe"]

/-- `SpeechAnalyzer._calculate_speech_engagement`.  `compound` is the VADER
compound sentiment (external collaborator output, in `[-1, 1]`).  The keyword
loop `score += 0.05` per contained keyword is the count times `0.05`. -/
def calculate_speech_engagement (text : String) (compound : ℚ) : ℚ :=
  let score : ℚ := 1/2
  -- speaking itself is engagement (+0.2)
  let score := score + 2/10
  let score := if 5/100 < compound then score + compound * (2/10)
    else if compound < -(5/100) then score + |compound| * (1/10)
    else score
  let wc := word_count text
  let score := if 10 < wc then score + 1/10
    else if 20 < wc then score + 15/100
    else score
  let score := score +
    ((engagement_keywords.countP (fun kw => pyIn kw (lowercase text))) : ℚ) * (5/100)
  min 1 (max 0 score)

end SpeechAnalyzer

/-! ## Engagement scorer (`services/engagement_scorer_v2.py`) -/

/-- The `emotion_data` dict consumed by `score_person`:
`engagement_score` (defaulted to 0.5 by `.get`, modelled as present),
`dominant_emotion` and `emotion_scores` (`.get` default `None`). -/
structure EmotionData where
  engagement_score : ℚ
  dominant_emotion : Option String
  emotion_scores : Option (List (String × ℚ))
deriving DecidableEq, Repr

/-- The `speech_data` dict consumed by `score_person`: `text` and `sentiment`
(`.get` default `None`), `engagement_score` (defaulted to 0.5 by `.get`,
modelled as present). -/
structure SpeechData where
  text : Option String
  sentiment : Option String
  engagement_score : ℚ
deriving DecidableEq, Repr

/-- A component-weight dict for `calculate_overall`. -/
structure Weights where
  fastvlm : ℚ
  emotion : ℚ
  body_language : ℚ
  speech : ℚ
  participation : ℚ
deriving DecidableEq, Repr

/-- `PersonEngagement.__init__` field defaults: every component score 0.5,
overall 0.5, not speaking, `confidence = 1.0`. -/
structure PersonEngagement where
  track_id : ℤ
  fastvlm_score : ℚ := 1/2
  emotion_score : ℚ := 1/2
  body_language_score : ℚ := 1/2
  speech_score : ℚ := 1/2
  participation_score : ℚ := 1/2
  overall_score : ℚ := 1/2
  vlm_text : String := ""
  vlm_keywords : List String := []
  dominant_emotion : Option String := none
  emotion_scores : Option (List (String × ℚ)) := none
  is_speaking : Bool := false
  speech_text : Option String := none
  speech_sentiment : Option String := none
  bbox : Option (ℤ × ℤ × ℤ × ℤ) := none
  confidence : ℚ := 1
deriving DecidableEq, Repr

/-- `PersonEngagement(track_id)` construction. -/
def PersonEngagement.init (track_id : ℤ) : PersonEngagement :=
  { track_id := track_id }

/-- The default weights dict inside `PersonEngagement.calculate_overall`
(used when `weights is None`). -/
def default_overall_weights : Weights :=
  { fastvlm := 50/100
    emotion := 20/100
    body_language := 20/100
    speech := 5/100
    participation := 5/100 }

/-- `PersonEngagement.calculate_overall`: weighted sum of the five component
scores, clamped to `[0, 1]`.  The Python method mutates `self`; here the
updated record is returned. -/
def PersonEngagement.calculate_overall (p : PersonEngagement)
    (weights : Option Weights) : PersonEngagement :=
  let w := weights.getD default_overall_weights
  let s := p.fastvlm_score * w.fastvlm + p.emotion_score * w.emotion +
    p.body_language_score * w.body_language + p.speech_score * w.speech +
    p.participation_score * w.participation
  { p with overall_score := max 0 (min 1 s) }

namespace EngagementScorer

/-- `EngagementScorer.__init__` component weights. -/
def weights : Weights :=
  { fastvlm := 35/100
    emotion := 25/100
    body_language := 15/100
    speech := 15/100
    participation := 10/100 }

/-- `EngagementScorer.score_person`.  Each optional modality dict is an
`Option` (`if fastvlm_data:` truthiness — the dicts handed in are non-empty
when present).  Note the `else` branch for absent speech: `is_speaking =
False` and `participation_score = 0.3`. -/
def score_person (track_id : ℤ)
    (fastvlm_data : Option KeywordParser.ParseResult)
    (emotion_data : Option EmotionData)
    (speech_data : Option SpeechData)
    (bbox : Option (ℤ × ℤ × ℤ × ℤ)) : PersonEngagement :=
  let person := { PersonEngagement.init track_id with bbox := bbox }
  let person :=
    match fastvlm_data with
    | none => person
    | some d =>
      { person with
        fastvlm_score := d.contextual_score
        vlm_text := d.vlm_text
        vlm_keywords := d.positive ++ d.neutral ++ d.negative
        body_language_score :=
          if !d.open_posture.isEmpty then 75/100
          else if !d.closed_posture.isEmpty then 35/100
          else 1/2 }
  let person :=
    match emotion_data with
    | none => person
    | some d =>
      { person with
        emotion_score := d.engagement_score
        dominant_emotion := d.dominant_emotion
        emotion_scores := d.emotion_scores }
  let person :=
    match speech_data with
    | some d =>
      { person with
        is_speaking := true
        speech_text := d.text
        speech_sentiment := d.sentiment
        speech_score := d.engagement_score
        participation_score := 8/10 }
    | none =>
      { person with
        is_speaking := false
        participation_score := 3/10 }
  person.calculate_overall (some weights)

end EngagementScorer

/-- `RoomEngagement.__init__` field defaults. -/
structure RoomEngagement where
  overall_score : ℚ := 1/2
  total_participants : ℕ := 0
  active_participants : ℕ := 0
  highly_engaged_count : ℕ := 0
  neutral_count : ℕ := 0
  disengaged_count : ℕ := 0
  avg_fastvlm_score : ℚ := 1/2
  avg_emotion_score : ℚ := 1/2
  avg_speech_score : ℚ := 1/2
  speaking_count : ℕ := 0
  participation_rate : ℚ := 0
  persons : List PersonEngagement := []
deriving DecidableEq, Repr

/-- One iteration of the distribution-counting `for` loop in
`aggregate_room`: `overall_score >= 0.7` → highly engaged, `elif >= 0.4` →
neutral, `else` → disengaged. -/
def bucketStep (acc : ℕ × ℕ × ℕ) (p : PersonEngagement) : ℕ × ℕ × ℕ :=
  if 7/10 ≤ p.overall_score then (acc.1 + 1, acc.2.1, acc.2.2)
  else if 4/10 ≤ p.overall_score then (acc.1, acc.2.1 + 1, acc.2.2)
  else (acc.1, acc.2.1, acc.2.2 + 1)

namespace EngagementScorer

/-- `EngagementScorer.aggregate_room`: early return of the default
`RoomEngagement` (with `persons` and `total_participants` set) when the list
is empty; otherwise the averages, bucket counts, active/speaking counts and
the participation rate. -/
def aggregate_room (persons : List PersonEngagement) : RoomEngagement :=
  let room : RoomEngagement :=
    { persons := persons
      total_participants := persons.length }
  if persons.length = 0 then room
  else
    let total : ℚ := (persons.length : ℚ)
    let buckets := persons.foldl bucketStep (0, 0, 0)
    { room with
      overall_score := (persons.map (fun p => p.overall_score)).sum / total
      highly_engaged_count := buckets.1
      neutral_count := buckets.2.1
      disengaged_count := buckets.2.2
      active_participants := persons.countP (fun p => decide (1/2 < p.confidence))
      avg_fastvlm_score := (persons.map (fun p => p.fastvlm_score)).sum / total
      avg_emotion_score := (persons.map (fun p => p.emotion_score)).sum / total
      avg_speech_score := (persons.map (fun p => p.speech_score)).sum / total
      speaking_count := persons.countP (fun p => p.is_speaking)
      participation_rate := ((persons.countP (fun p => p.is_speaking)) : ℚ) / total }

end EngagementScorer

/-! ## Webhook rate limiting (`main_fastvlm.py`, `websocket_endpoint` and
`send_webhook`)

Per-connection message handling is sequential (one `while True` receive
loop), so one connection is modelled as a fold over an explicit list of
`video_frame` events.  Times are rationals in seconds (`datetime.now()` /
`total_seconds()`).  The delivery outcome of the HTTP post is an external
collaborator result; `send_webhook` catches `httpx.TimeoutException` and
every other exception internally (logging only), which the embedding renders
by `handle_video_frame` being total and ignoring the outcome. -/

/-- The `WEBHOOK_ENABLED` / `WEBHOOK_URL` environment configuration. -/
structure WebhookConfig where
  enabled : Bool
  url : String
deriving DecidableEq, Repr

/-- Python `round` (banker's rounding, half to even): the floor, or the
floor plus one when the fractional part exceeds one half, with exact halves
resolved to the even neighbour. -/
def pyRound (q : ℚ) : ℤ :=
  if q - (⌊q⌋ : ℚ) < 1/2 then ⌊q⌋
  else if 1/2 < q - (⌊q⌋ : ℚ) then ⌊q⌋ + 1
  else if ⌊q⌋ % 2 = 0 then ⌊q⌋ else ⌊q⌋ + 1

/-- The JSON payload posted by `send_webhook`: the 0–1 score converted to a
0–100 percentage, plus the keyword summary. -/
structure WebhookPayload where
  engagement : ℤ
  keywords : List String
deriving DecidableEq, Repr

/-- `send_webhook`: returns early (no post) when disabled or the URL is
empty; otherwise posts `{"engagement": round(score * 100), "keywords": …}`.
The result is the payload actually posted, if any; timeouts and errors of
the post are caught and logged inside this function. -/
def send_webhook (cfg : WebhookConfig) (engagement_score : ℚ)
    (keywords : List String) : Option WebhookPayload :=
  if cfg.enabled = false ∨ cfg.url = "" then none
  else some { engagement := pyRound (engagement_score * 100), keywords := keywords }

/-- Outcome of the external HTTP post awaited inside `send_webhook`. -/
inductive WebhookOutcome
  | delivered
  | httpStatus (code : ℕ)
  | timedOut
  | failed
deriving DecidableEq, Repr

/-- A successful `process_frame` result as consumed by the webhook block:
`overall_score` (`.get('overall_score', 0.5)` — present in every non-error
result) and the `parsed_keywords` summary. -/
structure FrameValue where
  overall_score : ℚ
  parsed_keywords : List String
deriving DecidableEq, Repr

/-- One `video_frame` message: its arrival time, the `process_frame` result
(`.error` models the `{"error": …}` dict), and the external delivery
outcome of any webhook post triggered by it. -/
structure FrameEvent where
  now : ℚ
  result : Except String FrameValue
  outcome : WebhookOutcome

/-- Per-connection mutable state of `websocket_endpoint`:
`last_webhook_time` (initialised to the connection time) and
`frame_count`. -/
structure WsState where
  last_webhook_time : ℚ
  frame_count : ℕ
deriving DecidableEq, Repr

/-- What one `video_frame` iteration did: the webhook attempt, if the rate
gate passed (attempt time and the payload posted, `none` when disabled), and
whether the `engagement_update` response was sent. -/
structure StepOutput where
  attempt : Option (ℚ × Option WebhookPayload)
  response_sent : Bool
  connection_closed : Bool
deriving DecidableEq, Repr

/-- `WEBHOOK_INTERVAL_SECONDS = 10` in `websocket_endpoint`. -/
def WEBHOOK_INTERVAL_SECONDS : ℚ := 10

/-- The `video_frame` branch of the `websocket_endpoint` receive loop:
bump `frame_count`; unless the result is an error dict, compare
`now - last_webhook_time` against the 10 s interval, and on passing post the
webhook and advance `last_webhook_time` to `now` (unconditionally on
attempt); finally send the `engagement_update` response.  The delivery
outcome `ev.outcome` is deliberately unused: `send_webhook` swallows it. -/
def handle_video_frame (cfg : WebhookConfig) (ev : FrameEvent) (st : WsState) :
    WsState × StepOutput :=
  let st := { st with frame_count := st.frame_count + 1 }
  match ev.result with
  | .error _ =>
    (st, { attempt := none, response_sent := true, connection_closed := false })
  | .ok v =>
    if WEBHOOK_INTERVAL_SECONDS ≤ ev.now - st.last_webhook_time then
      ({ st with last_webhook_time := ev.now },
       { attempt := some (ev.now, send_webhook cfg v.overall_score v.parsed_keywords)
         response_sent := true
         connection_closed := false })
    else
      (st, { attempt := none, response_sent := true, connection_closed := false })

/-- Run a connection's `video_frame` events in arrival order, collecting the
webhook attempts. -/
def run_frames (cfg : WebhookConfig) (st : WsState) :
    List FrameEvent → WsState × List (ℚ × Option WebhookPayload)
  | [] => (st, [])
  | ev :: rest =>
    let step := handle_video_frame cfg ev st
    let restRun := run_frames cfg step.1 rest
    (restRun.1, step.2.attempt.toList ++ restRun.2)

/-- The webhook attempts of one whole connection whose handler started at
time `t0` (`last_webhook_time = datetime.now()` on entry). -/
def conn_attempts (cfg : WebhookConfig) (t0 : ℚ) (evs : List FrameEvent) :
    List (ℚ × Option WebhookPayload) :=
  (run_frames cfg { last_webhook_time := t0, frame_count := 0 } evs).2

/-! ## Helper lemmas -/

/-- Bucket membership tests matching `bucketStep` exactly. -/
def highB (p : PersonEngagement) : Bool := decide ((7:ℚ)/10 ≤ p.overall_score)

/-- Neutral-bucket test: not highly engaged but at least 0.4. -/
def midB (p : PersonEngagement) : Bool :=
  !highB p && decide ((4:ℚ)/10 ≤ p.overall_score)

/-- Disengaged-bucket test: below both thresholds. -/
def lowB (p : PersonEngagement) : Bool :=
  !highB p && !decide ((4:ℚ)/10 ≤ p.overall_score)

/-- Unfolding the distribution-counting fold: each accumulator component
grows by the count of persons in its bucket. -/
lemma bucketFold_spec (l : List PersonEngagement) :
    ∀ acc : ℕ × ℕ × ℕ,
      l.foldl bucketStep acc =
        (acc.1 + l.countP highB, acc.2.1 + l.countP midB, acc.2.2 + l.countP lowB) := by
  induction l with
  | nil => intro acc; simp
  | cons p l ih =>
    intro acc
    rw [List.foldl_cons, ih, List.countP_cons, List.countP_cons, List.countP_cons]
    have e1 : highB p = decide ((7:ℚ)/10 ≤ p.overall_score) := rfl
    have e2 : midB p = (!highB p && decide ((4:ℚ)/10 ≤ p.overall_score)) := rfl
    have e3 : lowB p = (!highB p && !decide ((4:ℚ)/10 ≤ p.overall_score)) := rfl
    by_cases h7 : (7:ℚ)/10 ≤ p.overall_score <;>
      by_cases h4 : (4:ℚ)/10 ≤ p.overall_score <;>
        rw [bucketStep] <;>
          simp [e1, e2, e3, h7, h4] <;>
          omega

/-- The three buckets partition any list of persons. -/
lemma bucket_countP_partition (l : List PersonEngagement) :
    l.countP highB + l.countP midB + l.countP lowB = l.length := by
  induction l with
  | nil => simp
  | cons p l ih =>
    rw [List.countP_cons, List.countP_cons, List.countP_cons, List.length_cons]
    have e2 : midB p = (!highB p && decide ((4:ℚ)/10 ≤ p.overall_score)) := rfl
    have e3 : lowB p = (!highB p && !decide ((4:ℚ)/10 ≤ p.overall_score)) := rfl
    cases hh : highB p <;> cases h4 : decide ((4:ℚ)/10 ≤ p.overall_score) <;>
      simp [e2, e3, hh, h4] <;>
      omega

/-- `score_person` never writes `confidence`: it stays at the constructor
default `1.0`. -/
lemma score_person_confidence (track_id : ℤ)
    (f : Option KeywordParser.ParseResult) (e : Option EmotionData)
    (s : Option SpeechData) (b : Option (ℤ × ℤ × ℤ × ℤ)) :
    (EngagementScorer.score_person track_id f e s b).confidence = 1 := by
  cases f <;> cases e <;> cases s <;> rfl

/-! ## Claim theorems -/

/-- C1 (counterexample): `score_person` with every modality absent does NOT
return overall score 0.5: the absent-speech branch sets the participation
component to 0.3, so the weighted overall is 0.48. -/
theorem score_person_all_absent_not_half :
    (EngagementScorer.score_person 1 none none none none).overall_score ≠ 1/2 := by
  norm_num [EngagementScorer.score_person, EngagementScorer.weights,
    PersonEngagement.calculate_overall, PersonEngagement.init, min_def, max_def]

/-- C1 (amended): with every modality absent, the context, emotion,
body-language and speech components keep the neutral default 0.5, but the
participation component is set to 0.3 (not-speaking branch), and the overall
score is exactly 0.48 = 12/25. -/
theorem score_person_all_absent_components :
    (EngagementScorer.score_person 1 none none none none).fastvlm_score = 1/2 ∧
    (EngagementScorer.score_person 1 none none none none).emotion_score = 1/2 ∧
    (EngagementScorer.score_person 1 none none none none).body_language_score = 1/2 ∧
    (EngagementScorer.score_person 1 none none none none).speech_score = 1/2 ∧
    (EngagementScorer.score_person 1 none none none none).participation_score = 3/10 ∧
    (EngagementScorer.score_person 1 none none none none).overall_score = 12/25 := by
  refine ⟨rfl, rfl, rfl, rfl, rfl, ?_⟩
  norm_num [EngagementScorer.score_person, EngagementScorer.weights,
    PersonEngagement.calculate_overall, PersonEngagement.init, min_def, max_def]

/-- C5: `aggregate_room` on the empty list returns the default room snapshot:
zero participants, overall 0.5, all distribution buckets zero, no speakers,
participation rate 0.  (`aggregate_room` is a total function — the division
by `total_participants` sits behind the early return.) -/
theorem aggregate_room_empty :
    (EngagementScorer.aggregate_room []).total_participants = 0 ∧
    (EngagementScorer.aggregate_room []).overall_score = 1/2 ∧
    (EngagementScorer.aggregate_room []).highly_engaged_count = 0 ∧
    (EngagementScorer.aggregate_room []).neutral_count = 0 ∧
    (EngagementScorer.aggregate_room []).disengaged_count = 0 ∧
    (EngagementScorer.aggregate_room []).speaking_count = 0 ∧
    (EngagementScorer.aggregate_room []).participation_rate = 0 :=
  ⟨rfl, rfl, rfl, rfl, rfl, rfl, rfl⟩

/-- C7: `parse` of empty (or absent — `if not vlm_text`) text is the
canonical neutral observation: score 0.5, every match set empty, dominant
sentiment `"neutral"`. -/
theorem parse_empty_neutral :
    KeywordParser.parse "" = KeywordParser.empty_result ∧
    (KeywordParser.parse "").contextual_score = 1/2 ∧
    (KeywordParser.parse "").positive = [] ∧
    (KeywordParser.parse "").neutral = [] ∧
    (KeywordParser.parse "").negative = [] ∧
    (KeywordParser.parse "").open_posture = [] ∧
    (KeywordParser.parse "").closed_posture = [] ∧
    (KeywordParser.parse "").active_gestures = [] ∧
    (KeywordParser.parse "").positive_emotions = [] ∧
    (KeywordParser.parse "").negative_emotions = [] ∧
    (KeywordParser.parse "").neutral_emotions = [] ∧
    (KeywordParser.parse "").dominant_sentiment = "neutral" :=
  ⟨rfl, rfl, rfl, rfl, rfl, rfl, rfl, rfl, rfl, rfl, rfl, rfl⟩

/-- C9: for every list of persons, the three distribution buckets of
`aggregate_room` — at least 0.7 highly engaged, in `[0.4, 0.7)` neutral,
below 0.4 disengaged — count every person exactly once, so they sum to
`total_participants`. -/
theorem room_distribution_partition (persons : List PersonEngagement) :
    (EngagementScorer.aggregate_room persons).highly_engaged_count +
      (EngagementScorer.aggregate_room persons).neutral_count +
      (EngagementScorer.aggregate_room persons).disengaged_count =
      (EngagementScorer.aggregate_room persons).total_participants ∧
    (EngagementScorer.aggregate_room persons).highly_engaged_count =
      persons.countP (fun p => decide (7/10 ≤ p.overall_score)) ∧
    (EngagementScorer.aggregate_room persons).neutral_count =
      persons.countP (fun p => decide (4/10 ≤ p.overall_score ∧ p.overall_score < 7/10)) ∧
    (EngagementScorer.aggregate_room persons).disengaged_count =
      persons.countP (fun p => decide (p.overall_score < 4/10)) := by
  have hhigh : persons.countP highB =
      persons.countP (fun p => decide ((7:ℚ)/10 ≤ p.overall_score)) := rfl
  have hmid : persons.countP midB =
      persons.countP (fun p => decide ((4:ℚ)/10 ≤ p.overall_score ∧ p.overall_score < 7/10)) := by
    apply List.countP_congr
    intro p _
    by_cases h7 : (7:ℚ)/10 ≤ p.overall_score <;>
      by_cases h4 : (4:ℚ)/10 ≤ p.overall_score <;>
        simp [midB, highB, h7, h4] <;> linarith
  have hlow : persons.countP lowB =
      persons.countP (fun p => decide (p.overall_score < (4:ℚ)/10)) := by
    apply List.countP_congr
    intro p _
    by_cases h7 : (7:ℚ)/10 ≤ p.overall_score <;>
      by_cases h4 : (4:ℚ)/10 ≤ p.overall_score <;>
        simp [lowB, highB, h7, h4] <;> linarith
  unfold EngagementScorer.aggregate_room
  by_cases hlen : persons.length = 0
  · rw [List.length_eq_zero] at hlen
    subst hlen
    simp
  · simp only [hlen, if_neg, if_false]
    have hfold := bucketFold_spec persons (0, 0, 0)
    have hpart := bucket_countP_partition persons
    simp only [hfold]
    refine ⟨by simpa using hpart, by simpa using hhigh, by simpa using hmid,
      by simpa using hlow⟩

/-- C10: `score_person` leaves `confidence` at its constructor value 1.0
for every combination of inputs, so for every room aggregated from
`score_person` outputs the active-participant count (confidence above 0.5)
equals the total participant count. -/
theorem score_person_confidence_active :
    (∀ (track_id : ℤ) (f : Option KeywordParser.ParseResult)
        (e : Option EmotionData) (s : Option SpeechData)
        (b : Option (ℤ × ℤ × ℤ × ℤ)),
      (EngagementScorer.score_person track_id f e s b).confidence = 1) ∧
    (∀ inputs : List (ℤ × Option KeywordParser.ParseResult × Option EmotionData ×
        Option SpeechData × Option (ℤ × ℤ × ℤ × ℤ)),
      (EngagementScorer.aggregate_room (inputs.map
          (fun i => EngagementScorer.score_person i.1 i.2.1 i.2.2.1 i.2.2.2.1 i.2.2.2.2))).active_participants =
        (EngagementScorer.aggregate_room (inputs.map
          (fun i => EngagementScorer.score_person i.1 i.2.1 i.2.2.1 i.2.2.2.1 i.2.2.2.2))).total_participants) := by
  refine ⟨score_person_confidence, ?_⟩
  intro inputs
  set persons := inputs.map
    (fun i => EngagementScorer.score_person i.1 i.2.1 i.2.2.1 i.2.2.2.1 i.2.2.2.2) with hpersons
  by_cases hlen : persons.length = 0
  · simp [EngagementScorer.aggregate_room, hlen]
  · simp only [EngagementScorer.aggregate_room, hlen, if_false]
    rw [List.countP_eq_length]
    intro p hp
    rw [hpersons] at hp
    obtain ⟨i, _, rfl⟩ := List.mem_map.mp hp
    rw [score_person_confidence]
    norm_num

/-! ## IoU lemmas -/

/-- The clipped intersection is never negative. -/
lemma interArea_nonneg (a b : BoundingBox) : 0 ≤ interArea a b :=
  mul_nonneg (le_max_left 0 _) (le_max_left 0 _)

/-- For a well-formed first box the intersection is at most its area. -/
lemma interArea_le_left (a b : BoundingBox) (ha : a.WellFormed) :
    interArea a b ≤ a.area := by
  obtain ⟨h1, h2⟩ := ha
  unfold interArea BoundingBox.area BoundingBox.width BoundingBox.height
  have hx : max 0 (min a.x2 b.x2 - max a.x1 b.x1) ≤ a.x2 - a.x1 := by
    apply max_le (by omega)
    have hm := min_le_left a.x2 b.x2
    have hM := le_max_left a.x1 b.x1
    omega
  have hy : max 0 (min a.y2 b.y2 - max a.y1 b.y1) ≤ a.y2 - a.y1 := by
    apply max_le (by omega)
    have hm := min_le_left a.y2 b.y2
    have hM := le_max_left a.y1 b.y1
    omega
  exact mul_le_mul hx hy (le_max_left 0 _) (by omega)

/-- The clipped intersection is symmetric in its arguments. -/
lemma interArea_comm (a b : BoundingBox) : interArea a b = interArea b a := by
  unfold interArea
  rw [min_comm a.x2 b.x2, max_comm a.x1 b.x1, min_comm a.y2 b.y2, max_comm a.y1 b.y1]

/-- The union term is symmetric in its arguments. -/
lemma unionArea_comm (a b : BoundingBox) : unionArea a b = unionArea b a := by
  unfold unionArea
  rw [interArea_comm]
  ring

/-- C4 (counterexample): the claim "IoU(a,a) = 1 for every well-formed box"
fails on the degenerate (zero-area) box (0,0,0,0): its union is 0, so
`_compute_iou` returns the 0 default, not 1. -/
theorem iou_self_claim_cex :
    BoundingBox.WellFormed ⟨0, 0, 0, 0, 1⟩ ∧
      computeIoU ⟨0, 0, 0, 0, 1⟩ ⟨0, 0, 0, 0, 1⟩ ≠ 1 := by
  constructor
  · exact ⟨le_refl 0, le_refl 0⟩
  · have hu : unionArea ⟨0, 0, 0, 0, 1⟩ ⟨0, 0, 0, 0, 1⟩ = 0 := by
      unfold unionArea interArea BoundingBox.area BoundingBox.width BoundingBox.height
      norm_num
    unfold computeIoU
    rw [if_pos hu]
    norm_num

/-- C4 (amended): `_compute_iou` is reflexive-to-1 on every well-formed box
of positive area (the zero-area case hits the union-0 default), symmetric on
all boxes, and bounded in `[0, 1]` on well-formed boxes. -/
theorem iou_self_symm_bounded :
    (∀ a : BoundingBox, a.WellFormed → 0 < a.area → computeIoU a a = 1) ∧
    (∀ a b : BoundingBox, computeIoU a b = computeIoU b a) ∧
    (∀ a b : BoundingBox, a.WellFormed → b.WellFormed →
      0 ≤ computeIoU a b ∧ computeIoU a b ≤ 1) := by
  refine ⟨?_, ?_, ?_⟩
  · intro a ha hpos
    obtain ⟨h1, h2⟩ := ha
    have hinter : interArea a a = a.area := by
      unfold interArea BoundingBox.area BoundingBox.width BoundingBox.height
      rw [min_self, min_self, max_self, max_self,
        max_eq_right (by omega : (0:ℤ) ≤ a.x2 - a.x1),
        max_eq_right (by omega : (0:ℤ) ≤ a.y2 - a.y1)]
    have hunion : unionArea a a = a.area := by
      unfold unionArea
      rw [hinter]
      ring
    unfold computeIoU
    rw [hunion, hinter, if_neg (by omega)]
    have : (a.area : ℚ) ≠ 0 := by
      exact_mod_cast (by omega : a.area ≠ 0)
    exact div_self this
  · intro a b
    unfold computeIoU
    rw [interArea_comm, unionArea_comm]
  · intro a b ha hb
    have hI0 := interArea_nonneg a b
    have hIa := interArea_le_left a b ha
    have hIb : interArea a b ≤ b.area := interArea_comm a b ▸ interArea_le_left b a hb
    unfold computeIoU
    by_cases hu : unionArea a b = 0
    · rw [if_pos hu]
      norm_num
    · rw [if_neg hu]
      have hUpos : 0 < unionArea a b := by
        unfold unionArea at *
        omega
      have hIU : interArea a b ≤ unionArea a b := by
        unfold unionArea at *
        omega
      constructor
      · apply div_nonneg
        · exact_mod_cast hI0
        · exact_mod_cast hUpos.le
      · rw [div_le_one (by exact_mod_cast hUpos)]
        exact_mod_cast hIU

/-- C4 (witness): the amended theorem applied at the unit box (0,0,2,2) and
the overlapping pair ((0,0,2,2),(1,1,3,3)). -/
theorem iou_self_symm_bounded_witness :
    computeIoU ⟨0, 0, 2, 2, 1⟩ ⟨0, 0, 2, 2, 1⟩ = 1 ∧
    (0 ≤ computeIoU ⟨0, 0, 2, 2, 1⟩ ⟨1, 1, 3, 3, 1⟩ ∧
      computeIoU ⟨0, 0, 2, 2, 1⟩ ⟨1, 1, 3, 3, 1⟩ ≤ 1) := by
  constructor
  · exact iou_self_symm_bounded.1 ⟨0, 0, 2, 2, 1⟩ ⟨by norm_num, by norm_num⟩
      (by unfold BoundingBox.area BoundingBox.width BoundingBox.height; norm_num)
  · exact iou_self_symm_bounded.2.2 ⟨0, 0, 2, 2, 1⟩ ⟨1, 1, 3, 3, 1⟩
      ⟨by norm_num, by norm_num⟩ ⟨by norm_num, by norm_num⟩

/-! ## Tracker miss/prune scenario -/

/-- The single detection of the pruning scenario (frame 1). -/
def c2Det : BoundingBox := ⟨0, 0, 10, 10, 1⟩

/-- The scenario run: frame 1 presents `[c2Det]` to a fresh default tracker
(iouThreshold 0.3, maxAge 30), every later frame presents no detections.
`c2Frame lsa n` is the tracker state and the `update` result after frame
`n`; `lsa` is the (never consulted) assignment solver. -/
def c2Frame (lsa : List (List ℚ) → List (ℕ × ℕ)) :
    ℕ → PersonTracker × List TrackedPerson
  | 0 => (PersonTracker.init, [])
  | n + 1 => (c2Frame lsa n).1.update lsa (if n = 0 then [c2Det] else [])

/-- The scenario's single track after `k` consecutive misses. -/
def c2TrackAt (k : ℕ) : TrackedPerson :=
  { track_id := 1
    bbox := c2Det
    history := [c2Det]
    frames_since_update := k
    total_frames := 1 }

/-- The scenario's tracker state after `k` consecutive misses. -/
def c2StateAt (k : ℕ) : PersonTracker :=
  { iou_threshold := 3/10
    max_age := 30
    tracks := [(1, c2TrackAt k)]
    next_track_id := 2 }

/-- As long as at most 30 misses have accumulated, the scenario state is the
single track with `frames_since_update = k` (it was created at frame 1 and
marked missed once per subsequent frame). -/
lemma c2Frame_state (lsa : List (List ℚ) → List (ℕ × ℕ)) :
    ∀ k, k ≤ 30 → c2Frame lsa (k + 1) = (c2StateAt k, [c2TrackAt k]) := by
  intro k
  induction k with
  | zero => intro _; rfl
  | succ k ih =>
    intro hk
    have hstep : c2Frame lsa (k + 1 + 1) =
        (c2Frame lsa (k + 1)).1.update lsa [] := by
      show (c2Frame lsa (k + 1)).1.update lsa (if k + 1 = 0 then [c2Det] else []) = _
      rw [if_neg (Nat.succ_ne_zero k)]
    rw [hstep, ih (by omega)]
    have hkeep : ¬ (30 < k + 1) := by omega
    simp [PersonTracker.update, PersonTracker.remove_stale_tracks,
      TrackedPerson.mark_missed, c2StateAt, c2TrackAt, hkeep]

/-- C2: with the default configuration (maxAge 30, iouThreshold 0.3), the
track created by `update` at frame 1 and never matched again is in the list
returned by `update` on every frame 1 through 31 (30 accumulated misses,
`frames_since_update = 30` is not `> max_age`), and the list returned at
frame 32 is empty — the track was pruned on its 31st miss.  The statement is
universal over the external assignment solver, which the scenario never
consults. -/
theorem tracker_prune_after_max_age (lsa : List (List ℚ) → List (ℕ × ℕ))
    (n : ℕ) (h1 : 1 ≤ n) (h2 : n ≤ 31) :
    1 ∈ ((c2Frame lsa n).2.map TrackedPerson.track_id) ∧
      (c2Frame lsa 32).2 = [] := by
  constructor
  · obtain ⟨k, rfl⟩ : ∃ k, n = k + 1 := ⟨n - 1, by omega⟩
    rw [c2Frame_state lsa k (by omega)]
    simp [c2TrackAt]
  · have h31 : c2Frame lsa 31 = (c2StateAt 30, [c2TrackAt 30]) :=
      c2Frame_state lsa 30 (by norm_num)
    have e1 : c2Frame lsa 32 =
        (c2Frame lsa 31).1.update lsa (if 31 = 0 then [c2Det] else []) := rfl
    rw [e1, h31]
    rfl

/-- C2 (witness): the pruning theorem at frame 31 with the trivial solver:
the track is still reported at frame 31 and gone at frame 32. -/
theorem tracker_prune_after_max_age_witness :
    1 ∈ ((c2Frame (fun _ => []) 31).2.map TrackedPerson.track_id) ∧
      (c2Frame (fun _ => []) 32).2 = [] :=
  tracker_prune_after_max_age (fun _ => []) 31 (by norm_num) (by norm_num)

/-! ## Negation suppression and the spec's parse example -/

/-- The spec's negation example text. -/
def negationExampleText : String := "not engaged at all, looking away"

/-- C6: a positive-engagement phrase contained in the lowercased text is
excluded from the positive matches of `parse` exactly when `_is_negated`
holds — some negation token occurs within the 30 characters before the
phrase's first occurrence.  On the example text, "engaged" (preceded by
"not ") is excluded, "looking away" is a negative match, and the contextual
score is below 0.5. -/
theorem positive_negation_suppression :
    (∀ text kw : String, kw ∈ KeywordParser.POSITIVE_KEYWORDS →
        pyIn kw (lowercase text) = true →
        (kw ∈ (KeywordParser.parse text).positive ↔
          KeywordParser.is_negated kw (lowercase text) = false)) ∧
    "engaged" ∉ (KeywordParser.parse negationExampleText).positive ∧
    "looking away" ∈ (KeywordParser.parse negationExampleText).negative ∧
    (KeywordParser.parse negationExampleText).contextual_score < 1/2 := by
  refine ⟨?_, ?_, ?_, ?_⟩
  · intro text kw hkw hin
    by_cases htext : text = ""
    · subst htext
      have hempty : ∀ k ∈ KeywordParser.POSITIVE_KEYWORDS,
          pyIn k (lowercase "") = false := by decide
      rw [hempty kw hkw] at hin
      cases hin
    · have hpos : (KeywordParser.parse text).positive =
          KeywordParser.extract_matching (lowercase text)
            KeywordParser.POSITIVE_KEYWORDS true := by
        rw [KeywordParser.parse, if_neg htext]
      rw [hpos]
      unfold KeywordParser.extract_matching
      rw [List.mem_filter]
      constructor
      · rintro ⟨-, hfilter⟩
        simpa [hin] using hfilter
      · intro hneg
        refine ⟨hkw, ?_⟩
        simp [hin, hneg]
  · decide
  · decide
  · have h : (KeywordParser.parse negationExampleText).contextual_score =
        KeywordParser.calculate_contextual_score [] [] ["looking away"]
          [] [] [] [] [] := rfl
    rw [h]
    norm_num [KeywordParser.calculate_contextual_score, min_def, max_def]

/-- C6 (witness): the suppression rule instantiated on the example text at
keyword "engaged": it occurs in the text, `_is_negated` holds ("not " sits
in the lookback window), and the rule excludes it from the matches. -/
theorem positive_negation_suppression_witness :
    "engaged" ∉ (KeywordParser.parse negationExampleText).positive := by
  intro hmem
  have h := (positive_negation_suppression.1 negationExampleText "engaged"
    (by decide) (by decide)).mp hmem
  exact absurd h (by decide)

/-! ## Speech engagement formula -/

/-- The speech-engagement formula exactly as the specification claim words
it, for comparison against `calculate_speech_engagement`: base 0.5, the
sentiment adjustment, a length bonus of +0.15 for more than 20 words else
+0.1 for more than 10 words, +0.05 per matched keyword, clamped to
`[0, 1]`.  (No flat speaking bonus.) -/
def claimed_speech_engagement (text : String) (compound : ℚ) : ℚ :=
  let score : ℚ := 1/2
  let score := if 5/100 < compound then score + compound * (2/10)
    else if compound < -(5/100) then score + |compound| * (1/10)
    else score
  let wc := word_count text
  let score := if 20 < wc then score + 15/100
    else if 10 < wc then score + 1/10
    else score
  let score := score +
    ((SpeechAnalyzer.engagement_keywords.countP (fun kw => pyIn kw (lowercase text))) : ℚ) * (5/100)
  min 1 (max 0 score)

/-- A 25-word neutral utterance with no engagement keywords. -/
def speechExampleText : String :=
  "a a a a a a a a a a a a a a a a a a a a a a a a a"

/-- C3 (counterexample): on a 25-word neutral text the code returns 0.8
(0.5 base + 0.2 flat speaking bonus + 0.1 length bonus — the `elif` arm
awarding +0.15 for more than 20 words is unreachable), while the claimed
formula gives 0.65, so the claim's formula does not describe
`_calculate_speech_engagement`. -/
theorem speech_engagement_claim_cex :
    SpeechAnalyzer.calculate_speech_engagement speechExampleText 0 = 4/5 ∧
    claimed_speech_engagement speechExampleText 0 = 13/20 ∧
    SpeechAnalyzer.calculate_speech_engagement speechExampleText 0 ≠
      claimed_speech_engagement speechExampleText 0 := by
  have hw : word_count speechExampleText = 25 := by decide
  have hc : (SpeechAnalyzer.engagement_keywords.countP
      (fun kw => pyIn kw (lowercase speechExampleText))) = 0 := by decide
  refine ⟨?_, ?_, ?_⟩
  · norm_num [SpeechAnalyzer.calculate_speech_engagement, hw, hc, min_def, max_def]
  · norm_num [claimed_speech_engagement, hw, hc, min_def, max_def]
  · norm_num [SpeechAnalyzer.calculate_speech_engagement,
      claimed_speech_engagement, hw, hc, min_def, max_def]

/-- C3 (amended): for every text and compound sentiment the code computes
0.5 + 0.2 (flat speaking bonus) + the sentiment adjustment + 0.1 exactly
when the word count exceeds 10 (the +0.15 arm for more than 20 words is
dead code behind the earlier `if`), + 0.05 per matched keyword, clamped to
`[0, 1]`. -/
theorem speech_engagement_code_formula (text : String) (compound : ℚ) :
    SpeechAnalyzer.calculate_speech_engagement text compound =
      min 1 (max 0 ((7:ℚ)/10 +
        (if 5/100 < compound then compound * (2/10)
          else if compound < -(5/100) then |compound| * (1/10)
          else 0) +
        (if 10 < word_count text then (1:ℚ)/10 else 0) +
        ((SpeechAnalyzer.engagement_keywords.countP
            (fun kw => pyIn kw (lowercase text))) : ℚ) * (5/100))) := by
  by_cases hc1 : (5:ℚ)/100 < compound <;>
    by_cases hc2 : compound < -((5:ℚ)/100) <;>
      by_cases hw1 : 10 < word_count text <;>
        by_cases hw2 : 20 < word_count text <;>
          simp only [SpeechAnalyzer.calculate_speech_engagement, hc1, hc2, hw1, hw2,
            if_true, if_false] <;>
          first
            | (exfalso; omega)
            | ring_nf

/-! ## Webhook rate-limit lemmas -/

/-- Along any event list, consecutive webhook attempts are at least 10
seconds apart, and the first attempt is at least 10 seconds after the
stored `last_webhook_time` of the entering state. -/
lemma run_frames_attempts_spaced (cfg : WebhookConfig) :
    ∀ (evs : List FrameEvent) (st : WsState),
      List.Chain' (fun a b : ℚ × Option WebhookPayload => a.1 + 10 ≤ b.1)
        (run_frames cfg st evs).2 ∧
      (∀ a ∈ (run_frames cfg st evs).2.head?, st.last_webhook_time + 10 ≤ a.1) := by
  intro evs
  induction evs with
  | nil =>
    intro st
    simp [run_frames]
  | cons ev rest ih =>
    intro st
    rcases ev with ⟨now, res, oc⟩
    cases res with
    | error e =>
      have h := ih { st with frame_count := st.frame_count + 1 }
      simpa [run_frames, handle_video_frame] using h
    | ok v =>
      by_cases hgate : WEBHOOK_INTERVAL_SECONDS ≤ now - st.last_webhook_time
      · have h := ih { st with frame_count := st.frame_count + 1, last_webhook_time := now }
        have hnow : st.last_webhook_time + 10 ≤ now := by
          have : (10:ℚ) ≤ now - st.last_webhook_time := hgate
          linarith
        simp only [run_frames, handle_video_frame, if_pos hgate] at *
        refine ⟨List.chain'_cons'.mpr ⟨?_, h.1⟩, ?_⟩
        · intro b hb
          exact le_trans (by linarith) (h.2 b hb)
        · intro a ha
          simp at ha
          subst ha
          simpa using hnow
      · have h := ih { st with frame_count := st.frame_count + 1 }
        simpa [run_frames, handle_video_frame, if_neg hgate] using h

/-- Python `round` maps `[0, 100]` into `[0, 100]`. -/
lemma pyRound_bounds (q : ℚ) (h0 : 0 ≤ q) (h1 : q ≤ 100) :
    0 ≤ pyRound q ∧ pyRound q ≤ 100 := by
  have hf0 : (0:ℤ) ≤ ⌊q⌋ := Int.floor_nonneg.mpr h0
  have hf1 : ⌊q⌋ ≤ 100 := by
    have h := Int.floor_mono h1
    have h100 : ⌊(100:ℚ)⌋ = 100 := by norm_num
    rw [h100] at h
    exact h
  have hfloor := Int.floor_le q
  unfold pyRound
  split_ifs with hr1 hr2 heven
  · exact ⟨hf0, hf1⟩
  · refine ⟨by omega, ?_⟩
    have hlt : (⌊q⌋ : ℚ) + 1/2 < q := by linarith
    have : (⌊q⌋ : ℚ) < 100 - 1/2 := by linarith
    have : ⌊q⌋ < 100 := by
      by_contra hc
      push_neg at hc
      have : ((100:ℤ) : ℚ) ≤ (⌊q⌋ : ℚ) := by exact_mod_cast hc
      norm_num at this
      linarith
    omega
  · exact ⟨hf0, hf1⟩
  · refine ⟨by omega, ?_⟩
    have heq : q - (⌊q⌋ : ℚ) = 1/2 := by linarith
    have : (⌊q⌋ : ℚ) ≤ 100 - 1/2 := by linarith
    have : ⌊q⌋ < 100 := by
      by_contra hc
      push_neg at hc
      have : ((100:ℤ) : ℚ) ≤ (⌊q⌋ : ℚ) := by exact_mod_cast hc
      norm_num at this
      linarith
    omega

/-- C8: the per-connection webhook contract of `websocket_endpoint`:
(1) over any event trace, consecutive webhook attempts are at least the
fixed 10-second interval apart, and the first attempt comes no sooner than
10 seconds after the connection's initial timestamp;
(2) when a non-error frame passes the gate, the attempt carries the posted
payload and `last_webhook_time` advances to the attempt time (it advances on
the attempt, not on delivery success);
(3) when notification is enabled with a non-empty URL, the posted payload is
the room overall score scaled by 100 and rounded to an integer;
(4) that integer lies in `[0, 100]` whenever the score lies in `[0, 1]`;
(5) the step is independent of the external delivery outcome — the
`engagement_update` response is always sent and the connection never closes
because of the webhook. -/
theorem webhook_rate_limit_contract :
    (∀ (cfg : WebhookConfig) (t0 : ℚ) (evs : List FrameEvent),
        List.Chain' (fun a b : ℚ × Option WebhookPayload => a.1 + 10 ≤ b.1)
          (conn_attempts cfg t0 evs) ∧
        (∀ a ∈ (conn_attempts cfg t0 evs).head?, t0 + 10 ≤ a.1)) ∧
    (∀ (cfg : WebhookConfig) (ev : FrameEvent) (st : WsState) (v : FrameValue),
        ev.result = Except.ok v →
        WEBHOOK_INTERVAL_SECONDS ≤ ev.now - st.last_webhook_time →
        (handle_video_frame cfg ev st).2.attempt =
          some (ev.now, send_webhook cfg v.overall_score v.parsed_keywords) ∧
        (handle_video_frame cfg ev st).1.last_webhook_time = ev.now) ∧
    (∀ (cfg : WebhookConfig) (s : ℚ) (kws : List String),
        cfg.enabled = true → cfg.url ≠ "" →
        send_webhook cfg s kws =
          some { engagement := pyRound (s * 100), keywords := kws }) ∧
    (∀ s : ℚ, 0 ≤ s → s ≤ 1 → 0 ≤ pyRound (s * 100) ∧ pyRound (s * 100) ≤ 100) ∧
    (∀ (cfg : WebhookConfig) (now : ℚ) (res : Except String FrameValue)
        (o1 o2 : WebhookOutcome) (st : WsState),
        handle_video_frame cfg ⟨now, res, o1⟩ st =
          handle_video_frame cfg ⟨now, res, o2⟩ st ∧
        (handle_video_frame cfg ⟨now, res, o1⟩ st).2.response_sent = true ∧
        (handle_video_frame cfg ⟨now, res, o1⟩ st).2.connection_closed = false) := by
  refine ⟨?_, ?_, ?_, ?_, ?_⟩
  · intro cfg t0 evs
    exact run_frames_attempts_spaced cfg evs { last_webhook_time := t0, frame_count := 0 }
  · intro cfg ev st v hres hgate
    rcases ev with ⟨now, res, oc⟩
    cases hres
    simp [handle_video_frame, if_pos hgate]
  · intro cfg s kws h1 h2
    unfold send_webhook
    rw [if_neg]
    push_neg
    exact ⟨by simp [h1], h2⟩
  · intro s h0 h1
    apply pyRound_bounds
    · positivity
    · nlinarith
  · intro cfg now res o1 o2 st
    refine ⟨rfl, ?_, ?_⟩ <;>
      cases res <;>
        simp [handle_video_frame] <;>
          split_ifs <;> rfl

/-- C8 (witness): the contract instantiated on one concrete connection: a
frame at t = 20 s on a connection opened at t = 0 with enabled config posts
`round(0.5 * 100) = 50`, within bounds. -/
theorem webhook_rate_limit_contract_witness :
    (handle_video_frame ⟨true, "sink"⟩
        ⟨20, Except.ok ⟨1/2, []⟩, WebhookOutcome.delivered⟩ ⟨0, 0⟩).2.attempt =
      some (20, send_webhook ⟨true, "sink"⟩ (1/2) []) ∧
    0 ≤ pyRound ((1/2 : ℚ) * 100) ∧ pyRound ((1/2 : ℚ) * 100) ≤ 100 := by
  have hgate : WEBHOOK_INTERVAL_SECONDS ≤
      (⟨20, Except.ok ⟨1/2, []⟩, WebhookOutcome.delivered⟩ : FrameEvent).now -
      (⟨0, 0⟩ : WsState).last_webhook_time := by
    show (10:ℚ) ≤ 20 - 0
    norm_num
  refine ⟨(webhook_rate_limit_contract.2.1 ⟨true, "sink"⟩
    ⟨20, Except.ok ⟨1/2, []⟩, WebhookOutcome.delivered⟩ ⟨0, 0⟩ ⟨1/2, []⟩ rfl hgate).1,
    (webhook_rate_limit_contract.2.2.2.1 (1/2) (by norm_num) (by norm_num)).1,
    (webhook_rate_limit_contract.2.2.2.1 (1/2) (by norm_num) (by norm_num)).2⟩

end SentimentDashboard
